import Mathlib

/-!
Verification of the serverless-deploy-bootstrap stack builder
(`src/bin/app.ts`).

The source is a single declarative constructor: from the stack's name it
derives a service name (by a JavaScript `String.replace` of the literal
suffix `-deploy-bootstrap` with the empty string, which removes the FIRST
occurrence of the suffix and is a no-op when the suffix is absent), builds
ARN pattern strings by interpolation, and assembles one service role with
seven policy statements, one deploy user, one deploy group with five policy
statements, a group membership, three outputs, and one SSM string parameter.

The embedding below mirrors that construction.  References to the service
role's ARN (a deferred CloudFormation `Fn::GetAtt` token in the source) are
modelled by the constructor `TemplateValue.getRoleArn` carrying the role's
construct id, distinguishing them from literal ARN pattern strings
(`TemplateValue.lit`).
-/

namespace DeployBootstrap

/-- Fixed stack-name suffix (src/bin/app.ts line 15). -/
def STACK_SUFFIX : String := "-deploy-bootstrap"

/-- Fixed version literal (src/bin/app.ts line 23). -/
def version : String := "1"

/-- Prefix test on character lists: `leadsWith pat s` is true when `pat`
is an initial segment of `s`. -/
def leadsWith : List Char → List Char → Bool
  | [], _ => true
  | _ :: _, [] => false
  | a :: as, b :: bs => a == b && leadsWith as bs

/-- Removal of the first occurrence of `pat`, as JavaScript
`String.prototype.replace(pat, '')` behaves for a string pattern: scan left
to right, delete the first match, leave the rest (and the whole string when
there is no match). -/
def removeFirst (pat : List Char) : List Char → List Char
  | [] => []
  | c :: rest =>
    if leadsWith pat (c :: rest) then (c :: rest).drop pat.length
    else c :: removeFirst pat rest

/-- Service-name derivation (src/bin/app.ts line 24):
`stackName.replace(STACK_SUFFIX, '')`. -/
def serviceName (stackName : String) : String :=
  String.mk (removeFirst STACK_SUFFIX.data stackName.data)

/-- A value placed in a policy statement's resource list or in an output:
either a literal ARN pattern string, or a reference to the ARN of a role
constructed in the same template (CloudFormation `Fn::GetAtt`). -/
inductive TemplateValue
  | lit (s : String)
  | getRoleArn (roleId : String)
deriving DecidableEq

/-- Statement effect (only ALLOW is used by the source). -/
inductive Effect
  | allow
  | deny
deriving DecidableEq

/-- One IAM policy statement: effect, resource list, action list. -/
structure PolicyStatement where
  effect : Effect
  resources : List TemplateValue
  actions : List String
deriving DecidableEq

/-- An IAM role: construct id, trust-relationship principals, and the
ordered list of statements attached with addToPolicy. -/
structure Role where
  roleId : String
  assumedBy : List String
  statements : List PolicyStatement
deriving DecidableEq

/-- An IAM user. -/
structure User where
  userName : String
deriving DecidableEq

/-- An IAM group: construct id and attached statements. -/
structure Group where
  groupId : String
  statements : List PolicyStatement
deriving DecidableEq

/-- A CfnOutput record. -/
structure CfnOutput where
  name : String
  value : TemplateValue
  description : String
  exportName : Option String
deriving DecidableEq

/-- An SSM string parameter record. -/
structure StringParameter where
  parameterName : String
  description : String
  stringValue : String
deriving DecidableEq

/-- The whole emitted template. -/
structure Template where
  serviceRole : Role
  deployUser : User
  deployGroup : Group
  deployUserGroups : List String
  outputs : List CfnOutput
  parameter : StringParameter
deriving DecidableEq

/-- src/bin/app.ts line 28. -/
def cloudFormationResources (sn accountId region : String) : List TemplateValue :=
  [.lit ("arn:aws:cloudformation:" ++ region ++ ":" ++ accountId ++ ":stack/" ++ sn ++ "*")]

/-- src/bin/app.ts line 29. -/
def s3BucketResources (sn : String) : List TemplateValue :=
  [.lit ("arn:aws:s3:::" ++ sn ++ "*")]

/-- src/bin/app.ts line 30. -/
def s3ObjectResources (sn : String) : List TemplateValue :=
  [.lit ("arn:aws:s3:::" ++ sn ++ "*/*")]

/-- src/bin/app.ts line 31. -/
def cloudWatchResources (sn accountId region : String) : List TemplateValue :=
  [.lit ("arn:aws:logs:" ++ region ++ ":" ++ accountId ++ ":log-group:/aws/lambda/" ++ sn ++ "*")]

/-- src/bin/app.ts line 32. -/
def lambdaResources (sn accountId region : String) : List TemplateValue :=
  [.lit ("arn:aws:lambda:" ++ region ++ ":" ++ accountId ++ ":function:" ++ sn ++ "*")]

/-- src/bin/app.ts line 33. -/
def stepFunctionResources (sn accountId region : String) : List TemplateValue :=
  [.lit ("arn:aws:states:" ++ region ++ ":" ++ accountId ++ ":stateMachine:" ++ sn ++ "*")]

/-- src/bin/app.ts line 34. -/
def iamResources (sn accountId : String) : List TemplateValue :=
  [.lit ("arn:aws:iam::" ++ accountId ++ ":role/" ++ sn ++ "*")]

/-- src/bin/app.ts line 35 (declared in the source and never used). -/
def cloudFormationStackResource : String := ""

/-- src/bin/app.ts line 37. -/
def s3DeploymentResources (sn : String) : List TemplateValue :=
  [.lit ("arn:aws:s3:::" ++ sn ++ "*deploymentbucket*")]

/-- Construct id of the service role (src/bin/app.ts line 39). -/
def serviceRoleId : String := "ServiceRole-v" ++ version

/-- Body of the stack constructor after the service name has been derived
(src/bin/app.ts lines 26-242): every resource of the template as a function
of the derived service name, the account id, and the region. -/
def buildTemplate (sn accountId region : String) : Template :=
  { serviceRole :=
      { roleId := serviceRoleId
        assumedBy := ["cloudformation.amazonaws.com"]
        statements :=
          [ { effect := .allow
              resources := s3ObjectResources sn
              actions := ["s3:PutObject", "s3:DeleteObject"] }
          , { effect := .allow
              resources := s3BucketResources sn
              actions := ["s3:*"] }
          , { effect := .allow
              resources := cloudWatchResources sn accountId region
              actions :=
                [ "logs:CreateLogGroup", "logs:DescribeLogGroup", "logs:DeleteLogGroup"
                , "logs:CreateLogStream", "logs:DescribeLogStreams", "logs:DeleteLogStream"
                , "logs:FilterLogEvents" ] }
          , { effect := .allow
              resources := lambdaResources sn accountId region
              actions :=
                [ "lambda:GetFunction", "lambda:CreateFunction", "lambda:DeleteFunction"
                , "lambda:UpdateFunctionConfiguration", "lambda:UpdateFunctionCode"
                , "lambda:ListVersionsByFunction", "lambda:PublishVersion"
                , "lambda:CreateAlias", "lambda:DeleteAlias", "lambda:UpdateAlias"
                , "lambda:GetFunctionConfiguration", "lambda:AddPermission"
                , "lambda:RemovePermission", "lambda:InvokeFunction" ] }
          , { effect := .allow
              resources := iamResources sn accountId
              actions :=
                [ "iam:PassRole", "iam:CreateRole", "iam:GetRole", "iam:DeleteRole"
                , "iam:GetRolePolicy", "iam:DeleteRolePolicy", "iam:PutRolePolicy" ] }
          , { effect := .allow
              resources := stepFunctionResources sn accountId region
              actions := ["dynamodb:CreateTable", "dynamodb:UpdateTable", "dynamodb:DeleteTable"] }
          , { effect := .allow
              resources := stepFunctionResources sn accountId region
              actions :=
                [ "states:CreateStateMachine", "states:DeleteStateMachine"
                , "states:DescribeStateMachine", "states:TagResource" ] }
          ] }
    deployUser := { userName := sn ++ "-deployer" }
    deployGroup :=
      { groupId := sn ++ "-deployers"
        statements :=
          [ { effect := .allow
              resources := [.lit "*"]
              actions := ["cloudformation:ValidateTemplate"] }
          , { effect := .allow
              resources := cloudFormationResources sn accountId region
              actions :=
                [ "cloudformation:CreateStack", "cloudformation:DescribeStacks"
                , "cloudformation:DeleteStack", "cloudformation:DescribeStackEvents"
                , "cloudformation:UpdateStack", "cloudformation:ListStackResources"
                , "cloudformation:DescribeStackResource" ] }
          , { effect := .allow
              resources := lambdaResources sn accountId region
              actions := ["lambda:GetFunction"] }
          , { effect := .allow
              resources := [.getRoleArn serviceRoleId]
              actions := ["iam:PassRole"] }
          , { effect := .allow
              resources := s3DeploymentResources sn
              actions := ["s3:*"] }
          ] }
    deployUserGroups := [sn ++ "-deployers"]
    outputs :=
      [ { name := "DeployUserName"
          value := .lit (sn ++ "-deployer")
          description := "PublisherUser"
          exportName := none }
      , { name := "DeployRoleArn"
          value := .getRoleArn serviceRoleId
          description := "The ARN of the CloudFormation service role"
          exportName := some "DeployRoleArn" }
      , { name := "BootstrapVersion"
          value := .lit version
          description := "The version of the bootstrap resources that are currently provisioned in this stack"
          exportName := some "BootstrapVersion" }
      ]
    parameter :=
      { parameterName := "/serverless-deploy-bootstrap/" ++ sn ++ "/version"
        description := "The version of the serverless-deploy-bootrap resources"
        stringValue := version } }

/-- The full stack constructor (src/bin/app.ts lines 19-243): derive the
service name from the stack's own name, then build the template. -/
def ServiceDeployBootstrap (stackName accountId region : String) : Template :=
  buildTemplate (serviceName stackName) accountId region

/-! ## Helper lemmas -/

lemma leadsWith_append (pat t : List Char) : leadsWith pat (pat ++ t) = true := by
  induction pat with
  | nil => rfl
  | cons a as ih => simp [leadsWith, ih]

/-- When `pat` does not occur at any position strictly before the final
`pat`, first-occurrence removal on `p ++ pat` returns `p`. -/
lemma removeFirst_append_clean (pat : List Char) (hpat : pat ≠ []) :
    ∀ p : List Char,
      (∀ i, i < p.length → leadsWith pat ((p ++ pat).drop i) = false) →
      removeFirst pat (p ++ pat) = p := by
  intro p
  induction p with
  | nil =>
    intro _
    cases pat with
    | nil => exact absurd rfl hpat
    | cons d ds =>
      rw [List.nil_append]
      simp only [removeFirst]
      rw [show leadsWith (d :: ds) (d :: ds) = true from by
        simpa using leadsWith_append (d :: ds) []]
      simp
  | cons c p ih =>
    intro h
    have h0 : leadsWith pat (c :: (p ++ pat)) = false := by
      simpa using h 0 (Nat.succ_pos p.length)
    have hshift : ∀ i, i < p.length → leadsWith pat ((p ++ pat).drop i) = false := by
      intro i hi
      simpa using h (i + 1) (Nat.succ_lt_succ hi)
    rw [List.cons_append]
    simp only [removeFirst, h0]
    simp [ih hshift]

lemma append_empty_append (x y z : String) : x ++ y ++ "" ++ z = x ++ (y ++ z) := by
  rw [String.append_empty, String.append_assoc]

/-- The state-machine ARN pattern and the table ARN pattern differ for all
inputs: they disagree within the fixed service segment of the ARN. -/
lemma statesPat_ne_tablePat (sn a r : String) :
    ("arn:aws:states:" ++ r ++ ":" ++ a ++ ":stateMachine:" ++ sn ++ "*") ≠
      ("arn:aws:dynamodb:" ++ r ++ ":" ++ a ++ ":table/" ++ sn ++ "*") := by
  intro h
  have h2 := congrArg (fun s => s.data.take 12) h
  simp only [String.data_append, List.append_assoc] at h2
  rw [List.take_append_of_le_length (by decide),
    List.take_append_of_le_length (by decide)] at h2
  exact absurd h2 (by decide)

/-- A string of the form `x ++ sn ++ y` contains `sn` as a contiguous
substring. -/
lemma data_decomp (x y sn : String) :
    ∃ u v, (x ++ sn ++ y).data = u ++ sn.data ++ v :=
  ⟨x.data, y.data, by simp [String.data_append]⟩

/-! ## Claim theorems -/

/-- C1: for every serviceName, accountId, and region, the deploy group has
exactly one statement carrying the iam:PassRole action, its resource list is
exactly the one-element list holding the ARN reference to the service role
constructed in the same template, and that list is not the wildcard list. -/
theorem deployGroup_passRole_exact (sn a r : String) :
    ((buildTemplate sn a r).deployGroup.statements.filter
        (fun s => s.actions.contains "iam:PassRole")) =
      [{ effect := .allow
         resources := [.getRoleArn (buildTemplate sn a r).serviceRole.roleId]
         actions := ["iam:PassRole"] }]
    ∧ [TemplateValue.getRoleArn (buildTemplate sn a r).serviceRole.roleId] ≠
        [TemplateValue.lit "*"] := by
  constructor
  · rfl
  · simp

/-- C5: for every input, the service role's trust relationship names exactly
the single principal cloudformation.amazonaws.com. -/
theorem serviceRole_trust_principal (sn a r : String) :
    (buildTemplate sn a r).serviceRole.assumedBy = ["cloudformation.amazonaws.com"] :=
  rfl

/-- C4: for every input the service role carries exactly seven statements in
the fixed order S3-object, S3-bucket, logs, Lambda, IAM, DynamoDB, Step
Functions; the sixth statement's resource list is the state-machine pattern,
and that pattern differs from the table pattern for every input. -/
theorem serviceRole_seven_statements (sn a r : String) :
    (buildTemplate sn a r).serviceRole.statements =
      [ { effect := .allow
          resources := s3ObjectResources sn
          actions := ["s3:PutObject", "s3:DeleteObject"] }
      , { effect := .allow
          resources := s3BucketResources sn
          actions := ["s3:*"] }
      , { effect := .allow
          resources := cloudWatchResources sn a r
          actions :=
            [ "logs:CreateLogGroup", "logs:DescribeLogGroup", "logs:DeleteLogGroup"
            , "logs:CreateLogStream", "logs:DescribeLogStreams", "logs:DeleteLogStream"
            , "logs:FilterLogEvents" ] }
      , { effect := .allow
          resources := lambdaResources sn a r
          actions :=
            [ "lambda:GetFunction", "lambda:CreateFunction", "lambda:DeleteFunction"
            , "lambda:UpdateFunctionConfiguration", "lambda:UpdateFunctionCode"
            , "lambda:ListVersionsByFunction", "lambda:PublishVersion"
            , "lambda:CreateAlias", "lambda:DeleteAlias", "lambda:UpdateAlias"
            , "lambda:GetFunctionConfiguration", "lambda:AddPermission"
            , "lambda:RemovePermission", "lambda:InvokeFunction" ] }
      , { effect := .allow
          resources := iamResources sn a
          actions :=
            [ "iam:PassRole", "iam:CreateRole", "iam:GetRole", "iam:DeleteRole"
            , "iam:GetRolePolicy", "iam:DeleteRolePolicy", "iam:PutRolePolicy" ] }
      , { effect := .allow
          resources := stepFunctionResources sn a r
          actions := ["dynamodb:CreateTable", "dynamodb:UpdateTable", "dynamodb:DeleteTable"] }
      , { effect := .allow
          resources := stepFunctionResources sn a r
          actions :=
            [ "states:CreateStateMachine", "states:DeleteStateMachine"
            , "states:DescribeStateMachine", "states:TagResource" ] }
      ]
    ∧ ((buildTemplate sn a r).serviceRole.statements[5]?.map (fun s => s.resources)) =
        some (stepFunctionResources sn a r)
    ∧ stepFunctionResources sn a r ≠
        [.lit ("arn:aws:dynamodb:" ++ r ++ ":" ++ a ++ ":table/" ++ sn ++ "*")] := by
  refine ⟨rfl, rfl, ?_⟩
  intro h
  simp only [stepFunctionResources, List.cons.injEq, TemplateValue.lit.injEq, and_true] at h
  exact statesPat_ne_tablePat sn a r h

/-- C6: at serviceName orders-api, account 111111111111, region us-east-1,
the S3-object pattern, the Lambda pattern, and the versioned parameter's
path are the documented literal strings. -/
theorem scenario_orders_api :
    s3ObjectResources "orders-api" = [.lit "arn:aws:s3:::orders-api*/*"]
    ∧ lambdaResources "orders-api" "111111111111" "us-east-1" =
        [.lit "arn:aws:lambda:us-east-1:111111111111:function:orders-api*"]
    ∧ (buildTemplate "orders-api" "111111111111" "us-east-1").parameter.parameterName =
        "/serverless-deploy-bootstrap/orders-api/version" :=
  ⟨rfl, rfl, rfl⟩

/-- C9: for every input, the third output is named BootstrapVersion with the
literal value "1", and the versioned parameter's stored string value is "1". -/
theorem version_outputs (sn a r : String) :
    (buildTemplate sn a r).outputs[2]? =
      some
        { name := "BootstrapVersion"
          value := .lit "1"
          description := "The version of the bootstrap resources that are currently provisioned in this stack"
          exportName := some "BootstrapVersion" }
    ∧ (buildTemplate sn a r).parameter.stringValue = "1" :=
  ⟨rfl, rfl⟩

/-- C8: the builder is a pure function of serviceName, accountId, and
region: two runs on identical inputs yield structurally identical
templates. -/
theorem builder_deterministic (sn1 a1 r1 sn2 a2 r2 : String)
    (hsn : sn1 = sn2) (ha : a1 = a2) (hr : r1 = r2) :
    buildTemplate sn1 a1 r1 = buildTemplate sn2 a2 r2 := by
  rw [hsn, ha, hr]

/-- C8 witness: the determinism theorem applied at concrete inputs. -/
theorem builder_deterministic_witness :
    buildTemplate "orders-api" "111111111111" "us-east-1" =
      buildTemplate "orders-api" "111111111111" "us-east-1" :=
  builder_deterministic "orders-api" "111111111111" "us-east-1"
    "orders-api" "111111111111" "us-east-1" rfl rfl rfl

/-- C7: for every non-empty serviceName, each of the eight resource-scope
patterns equals its documented shape with serviceName in the documented
position (name-prefix for seven, embedded before *deploymentbucket* for the
deployment-bucket pattern), and hence contains serviceName as a contiguous
substring of its character data. -/
theorem patterns_contain_serviceName (sn a r : String) (_hsn : sn ≠ "") :
    (cloudFormationResources sn a r =
        [.lit ("arn:aws:cloudformation:" ++ r ++ ":" ++ a ++ ":stack/" ++ sn ++ "*")]
      ∧ ∃ u v, ("arn:aws:cloudformation:" ++ r ++ ":" ++ a ++ ":stack/" ++ sn ++ "*").data =
          u ++ sn.data ++ v)
    ∧ (s3BucketResources sn = [.lit ("arn:aws:s3:::" ++ sn ++ "*")]
      ∧ ∃ u v, ("arn:aws:s3:::" ++ sn ++ "*").data = u ++ sn.data ++ v)
    ∧ (s3ObjectResources sn = [.lit ("arn:aws:s3:::" ++ sn ++ "*/*")]
      ∧ ∃ u v, ("arn:aws:s3:::" ++ sn ++ "*/*").data = u ++ sn.data ++ v)
    ∧ (cloudWatchResources sn a r =
        [.lit ("arn:aws:logs:" ++ r ++ ":" ++ a ++ ":log-group:/aws/lambda/" ++ sn ++ "*")]
      ∧ ∃ u v, ("arn:aws:logs:" ++ r ++ ":" ++ a ++ ":log-group:/aws/lambda/" ++ sn ++ "*").data =
          u ++ sn.data ++ v)
    ∧ (lambdaResources sn a r =
        [.lit ("arn:aws:lambda:" ++ r ++ ":" ++ a ++ ":function:" ++ sn ++ "*")]
      ∧ ∃ u v, ("arn:aws:lambda:" ++ r ++ ":" ++ a ++ ":function:" ++ sn ++ "*").data =
          u ++ sn.data ++ v)
    ∧ (stepFunctionResources sn a r =
        [.lit ("arn:aws:states:" ++ r ++ ":" ++ a ++ ":stateMachine:" ++ sn ++ "*")]
      ∧ ∃ u v, ("arn:aws:states:" ++ r ++ ":" ++ a ++ ":stateMachine:" ++ sn ++ "*").data =
          u ++ sn.data ++ v)
    ∧ (iamResources sn a = [.lit ("arn:aws:iam::" ++ a ++ ":role/" ++ sn ++ "*")]
      ∧ ∃ u v, ("arn:aws:iam::" ++ a ++ ":role/" ++ sn ++ "*").data = u ++ sn.data ++ v)
    ∧ (s3DeploymentResources sn = [.lit ("arn:aws:s3:::" ++ sn ++ "*deploymentbucket*")]
      ∧ ∃ u v, ("arn:aws:s3:::" ++ sn ++ "*deploymentbucket*").data = u ++ sn.data ++ v) :=
  ⟨⟨rfl, data_decomp ("arn:aws:cloudformation:" ++ r ++ ":" ++ a ++ ":stack/") "*" sn⟩,
   ⟨rfl, data_decomp "arn:aws:s3:::" "*" sn⟩,
   ⟨rfl, data_decomp "arn:aws:s3:::" "*/*" sn⟩,
   ⟨rfl, data_decomp ("arn:aws:logs:" ++ r ++ ":" ++ a ++ ":log-group:/aws/lambda/") "*" sn⟩,
   ⟨rfl, data_decomp ("arn:aws:lambda:" ++ r ++ ":" ++ a ++ ":function:") "*" sn⟩,
   ⟨rfl, data_decomp ("arn:aws:states:" ++ r ++ ":" ++ a ++ ":stateMachine:") "*" sn⟩,
   ⟨rfl, data_decomp ("arn:aws:iam::" ++ a ++ ":role/") "*" sn⟩,
   ⟨rfl, data_decomp "arn:aws:s3:::" "*deploymentbucket*" sn⟩⟩

/-- C7 witness: the pattern theorem applied at a concrete non-empty
serviceName. -/
theorem patterns_contain_serviceName_witness :
    cloudFormationResources "orders-api" "111111111111" "us-east-1" =
      [.lit ("arn:aws:cloudformation:" ++ "us-east-1" ++ ":" ++ "111111111111" ++
        ":stack/" ++ "orders-api" ++ "*")] :=
  (patterns_contain_serviceName "orders-api" "111111111111" "us-east-1" (by decide)).1.1

/-- C10: a stack named exactly by the suffix derives the empty serviceName,
and every resource-scope pattern degenerates to its unprefixed wildcard
form. -/
theorem suffix_only_stackName_wildcards (a r : String) :
    serviceName STACK_SUFFIX = ""
    ∧ s3BucketResources (serviceName STACK_SUFFIX) = [.lit "arn:aws:s3:::*"]
    ∧ s3ObjectResources (serviceName STACK_SUFFIX) = [.lit "arn:aws:s3:::*/*"]
    ∧ s3DeploymentResources (serviceName STACK_SUFFIX) = [.lit "arn:aws:s3:::*deploymentbucket*"]
    ∧ cloudFormationResources (serviceName STACK_SUFFIX) a r =
        [.lit ("arn:aws:cloudformation:" ++ r ++ ":" ++ a ++ ":stack/*")]
    ∧ cloudWatchResources (serviceName STACK_SUFFIX) a r =
        [.lit ("arn:aws:logs:" ++ r ++ ":" ++ a ++ ":log-group:/aws/lambda/*")]
    ∧ lambdaResources (serviceName STACK_SUFFIX) a r =
        [.lit ("arn:aws:lambda:" ++ r ++ ":" ++ a ++ ":function:*")]
    ∧ stepFunctionResources (serviceName STACK_SUFFIX) a r =
        [.lit ("arn:aws:states:" ++ r ++ ":" ++ a ++ ":stateMachine:*")]
    ∧ iamResources (serviceName STACK_SUFFIX) a = [.lit ("arn:aws:iam::" ++ a ++ ":role/*")] := by
  have hsn : serviceName STACK_SUFFIX = "" := by decide
  refine ⟨hsn, ?_, ?_, ?_, ?_, ?_, ?_, ?_, ?_⟩
  · rw [hsn]; rfl
  · rw [hsn]; rfl
  · rw [hsn]; rfl
  · rw [hsn]; simp only [cloudFormationResources]; rw [append_empty_append]; rfl
  · rw [hsn]; simp only [cloudWatchResources]; rw [append_empty_append]; rfl
  · rw [hsn]; simp only [lambdaResources]; rw [append_empty_append]; rfl
  · rw [hsn]; simp only [stepFunctionResources]; rw [append_empty_append]; rfl
  · rw [hsn]; simp only [iamResources]; rw [append_empty_append]; rfl

/-- C2 (evaluation at the failing input): a stack name lacking the expected
suffix passes through `replace` unchanged — construction raises no error
(the builder is a total function into Template) and the emitted template
embeds the unsuffixed stack name in its parameter path and user name. -/
theorem missing_suffix_emits_template :
    serviceName "orders-api" = "orders-api"
    ∧ (ServiceDeployBootstrap "orders-api" "111111111111" "us-east-1").parameter.parameterName =
        "/serverless-deploy-bootstrap/orders-api/version"
    ∧ (ServiceDeployBootstrap "orders-api" "111111111111" "us-east-1").deployUser.userName =
        "orders-api-deployer" :=
  ⟨by decide, by decide, by decide⟩

/-- C3 counterexample: a stack name that ends with the suffix and also
contains it earlier. JavaScript `replace` removes the FIRST occurrence, so
the derived serviceName is not the stack name with the TRAILING suffix
removed. -/
theorem serviceName_trailing_removal_counterexample :
    "x-deploy-bootstrapy" ++ STACK_SUFFIX = "x-deploy-bootstrapy-deploy-bootstrap"
    ∧ serviceName "x-deploy-bootstrapy-deploy-bootstrap" = "xy-deploy-bootstrap"
    ∧ serviceName "x-deploy-bootstrapy-deploy-bootstrap" ≠ "x-deploy-bootstrapy" :=
  ⟨by decide, by decide, by decide⟩

/-- C3 amended: the derived serviceName removes the FIRST occurrence of the
suffix; when the suffix occurs nowhere before its final, trailing position,
this coincides with removing the trailing suffix. -/
theorem serviceName_unique_trailing_suffix (p : String)
    (h : ∀ i, i < p.data.length →
        leadsWith STACK_SUFFIX.data ((p.data ++ STACK_SUFFIX.data).drop i) = false) :
    serviceName (p ++ STACK_SUFFIX) = p := by
  unfold serviceName
  rw [String.data_append]
  rw [removeFirst_append_clean STACK_SUFFIX.data (by decide) p.data h]

/-- C3 amended witness: the amended theorem applied at a concrete stack
name whose only suffix occurrence is the trailing one. -/
theorem serviceName_unique_trailing_suffix_witness :
    serviceName ("orders-api" ++ STACK_SUFFIX) = "orders-api" :=
  serviceName_unique_trailing_suffix "orders-api" (by decide)

end DeployBootstrap
